import Mathlib

/-!
Verification development for the Py-SiteCheck monitoring engine
(`src/core/monitor.py` and `src/core/utils.py`).

The Python code is shallowly embedded: the mutable `SiteMonitor` object
becomes an explicit `Monitor` state record, Python `dict`s become
association lists with Python-dict update semantics (assignment keeps the
key's position, deletion removes the key), and the outcome of the network
probes (`requests.get`, the TCP socket connect) — which is decided by the
outside world, not by the program — is passed in as an explicit
environment value.  Timestamps (`time.time()`) are abstracted as natural
numbers supplied by the environment.
-/

namespace PySiteCheck

/-- Embedding of the dataclass `SiteStatus` (monitor.py lines 26-49).
`latency_ms` is a float in Python; only the sentinel `-1` and the measured
value matter to the logic, so it is embedded as an integer. -/
structure SiteStatus where
  url : String
  is_online : Bool
  status_code : Int
  latency_ms : Int
  port_open : Bool
  port_checked : Nat
  last_check : Nat
  error_message : String
deriving DecidableEq

/-- The default `SiteStatus(url=url)` built by `add_site` (dataclass field
defaults, monitor.py lines 29-36); `now` stands for the
`time.time()` default of `last_check`. -/
def SiteStatus.init (url : String) (now : Nat) : SiteStatus :=
  { url := url
    is_online := false
    status_code := -1
    latency_ms := -1
    port_open := false
    port_checked := 443
    last_check := now
    error_message := "" }

/-- Embedding of the dataclass `AlertEntry` (monitor.py lines 58-65). -/
structure AlertEntry where
  url : String
  alert_type : String
  message : String
  timestamp : Nat
  status_code : Int
deriving DecidableEq

/-- The exception raised by `requests.get`, as far as the `except` chain of
`check_http_status` can distinguish it.  The constructors mirror the
classes of `requests.exceptions`; the subclass relations that matter are
`SSLError <: ConnectionError`, `ConnectTimeout <: ConnectionError` and
`ConnectTimeout <: Timeout` (requests/exceptions.py). -/
inductive ReqException where
  | timeout
  | connectTimeout
  | connectionError
  | sslError
  | tooManyRedirects
  | otherError (msg : String)
deriving DecidableEq

/-- Python `isinstance(e, requests.exceptions.Timeout)`:
`Timeout` itself and `ConnectTimeout` (which inherits from both
`ConnectionError` and `Timeout`). -/
def isTimeout : ReqException → Bool
  | .timeout => true
  | .connectTimeout => true
  | _ => false

/-- Python `isinstance(e, requests.exceptions.ConnectionError)`:
`ConnectionError` itself and its subclasses `SSLError` and
`ConnectTimeout`. -/
def isConnectionError : ReqException → Bool
  | .connectionError => true
  | .sslError => true
  | .connectTimeout => true
  | _ => false

/-- Python `isinstance(e, requests.exceptions.SSLError)`. -/
def isSSLError : ReqException → Bool
  | .sslError => true
  | _ => false

/-- Python `isinstance(e, requests.exceptions.TooManyRedirects)`. -/
def isTooManyRedirects : ReqException → Bool
  | .tooManyRedirects => true
  | _ => false

/-- Python `str(e)` for the exception, used only by the final
`except Exception` branch (which only an `otherError` can reach). -/
def excStr : ReqException → String
  | .otherError msg => msg
  | _ => ""

/-- Outcome of the `requests.get` call inside `check_http_status`: either a
response (status code plus the measured latency in ms) or a raised
exception.  This is an input of the environment. -/
inductive HttpOutcome where
  | success (status_code : Int) (latency_ms : Int)
  | raised (e : ReqException)
deriving DecidableEq

/-- Embedding of `SiteMonitor.check_http_status` (monitor.py lines
199-258).  The `try` body returns `(response.status_code, latency, "")`;
each `except` clause is tried in source order against the dynamic class of
the raised exception, exactly as Python does. -/
def check_http_status : HttpOutcome → Int × Int × String
  | .success status_code latency => (status_code, latency, "")
  | .raised e =>
    if isTimeout e then (-1, -1, "Connection timeout")
    else if isConnectionError e then (-1, -1, "Connection failed")
    else if isSSLError e then (-1, -1, "SSL certificate error")
    else if isTooManyRedirects e then (-1, -1, "Too many redirects")
    else (-1, -1, excStr e)

/-- Lookup in a Python `dict` embedded as an association list
(`d.get(k)` / `d[k]`). -/
def dictGet {α : Type} (d : List (String × α)) (k : String) : Option α :=
  (d.find? (fun p => p.1 == k)).map (fun p => p.2)

/-- Python `k in d`. -/
def dictContains {α : Type} (d : List (String × α)) (k : String) : Bool :=
  (dictGet d k).isSome

/-- Python `d[k] = v`: replaces the value at an existing key in place
(keeping the key's insertion position) or appends a new binding. -/
def dictSet {α : Type} (d : List (String × α)) (k : String) (v : α) :
    List (String × α) :=
  match d with
  | [] => [(k, v)]
  | p :: rest => if p.1 == k then (k, v) :: rest else p :: dictSet rest k v

/-- Python `del d[k]` (a dict holds each key at most once; on the
association lists reachable from an empty monitor the keys are unique, and
removing every binding of `k` coincides with removing the unique one). -/
def dictDel {α : Type} (d : List (String × α)) (k : String) :
    List (String × α) :=
  d.filter (fun p => !(p.1 == k))

/-- The state of a `SiteMonitor` object (monitor.py lines 85-114).
Callbacks are embedded as functions that either return or raise
(`Except.error` is a raised exception's message).  `spawned` is the trace
of one-off check threads started by `force_check`
(`threading.Thread(target=self._check_site, args=(url,)).start()`):
spawning is recorded here, and the spawned check itself is the later
application of `check_site`. -/
structure Monitor where
  check_interval : Nat
  timeout : Nat
  sites : List (String × SiteStatus)
  callbacks : List (SiteStatus → Except String Unit)
  alert_callbacks : List (AlertEntry → Except String Unit)
  alerts : List AlertEntry
  previous_states : List (String × Bool)
  running : Bool
  monitor_thread : Option Unit
  spawned : List String

/-- One iteration of the `for callback in self._callbacks` body of
`_notify_callbacks` (monitor.py lines 130-137): the callback is applied to
the published status; a raised exception is swallowed after printing
`Callback error: ...`.  The result records the argument the callback
received and the swallowed error message, if any. -/
def invoke_status_callback (callback : SiteStatus → Except String Unit)
    (status : SiteStatus) : SiteStatus × Option String :=
  match callback status with
  | Except.ok _ => (status, none)
  | Except.error e => (status, some ("Callback error: " ++ e))

/-- Embedding of `SiteMonitor._notify_callbacks` (monitor.py lines
130-137): every registered callback is invoked in order; the returned list
is the trace of invocations. -/
def notify_callbacks (callbacks : List (SiteStatus → Except String Unit))
    (status : SiteStatus) : List (SiteStatus × Option String) :=
  match callbacks with
  | [] => []
  | callback :: rest =>
    invoke_status_callback callback status :: notify_callbacks rest status

/-- One iteration of the loop body of `_notify_alert_callbacks`
(monitor.py lines 143-149). -/
def invoke_alert_callback (callback : AlertEntry → Except String Unit)
    (alert : AlertEntry) : AlertEntry × Option String :=
  match callback alert with
  | Except.ok _ => (alert, none)
  | Except.error e => (alert, some ("Alert callback error: " ++ e))

/-- Embedding of `SiteMonitor._notify_alert_callbacks` (monitor.py lines
143-149). -/
def notify_alert_callbacks (callbacks : List (AlertEntry → Except String Unit))
    (alert : AlertEntry) : List (AlertEntry × Option String) :=
  match callbacks with
  | [] => []
  | callback :: rest =>
    invoke_alert_callback callback alert :: notify_alert_callbacks rest alert

/-- Embedding of `SiteMonitor.get_alerts` (monitor.py lines 151-153):
`list(reversed(self._alerts))`. -/
def get_alerts (m : Monitor) : List AlertEntry :=
  m.alerts.reverse

/-- Embedding of `SiteMonitor.clear_alerts` (monitor.py lines 155-157):
`self._alerts.clear()`. -/
def clear_alerts (m : Monitor) : Monitor :=
  { m with alerts := [] }

/-- Embedding of `SiteMonitor.force_check` (monitor.py lines 494-500): a
new daemon thread running `_check_site(url)` is started and the call
returns at once; the spawn is recorded in the `spawned` trace. -/
def force_check (m : Monitor) (url : String) : Monitor :=
  { m with spawned := m.spawned ++ [url] }

/-- Embedding of `SiteMonitor.add_site` (monitor.py lines 164-176). -/
def add_site (m : Monitor) (url : String) (now : Nat) :
    Monitor × Option SiteStatus :=
  if dictContains m.sites url = false then
    let status := SiteStatus.init url now
    let m1 := { m with sites := dictSet m.sites url status }
    let m2 := force_check m1 url
    (m2, dictGet m2.sites url)
  else
    (m, dictGet m.sites url)

/-- Embedding of `SiteMonitor.remove_site` (monitor.py lines 178-184). -/
def remove_site (m : Monitor) (url : String) : Monitor :=
  let sites :=
    if dictContains m.sites url then dictDel m.sites url else m.sites
  let previous_states :=
    if dictContains m.previous_states url then dictDel m.previous_states url
    else m.previous_states
  { m with sites := sites, previous_states := previous_states }

/-- The comment at monitor.py line 373-376: a site counts as online iff
its HTTP status code lies in `[200, 400)`
(`status.is_online = 200 <= status_code < 400`). -/
def is_online_code (status_code : Int) : Bool :=
  decide (200 ≤ status_code) && decide (status_code < 400)

/-- The environment of one `_check_site` run: `host` and `port` stand for
the result of `self._get_host_and_port(url)` (monitor.py lines 319-338),
`http` is the outcome of the `requests.get` probe, `tcp_port_open` the
result of the `check_port(host, port)` socket probe, and `now` the
`time.time()` timestamp of the update. -/
structure CheckEnv where
  host : String
  port : Nat
  http : HttpOutcome
  tcp_port_open : Bool
  now : Nat

/-- The HTTP status code a check with environment `env` observes. -/
def http_code (env : CheckEnv) : Int :=
  (check_http_status env.http).1

/-- The online flag a check with environment `env` computes. -/
def new_online (env : CheckEnv) : Bool :=
  is_online_code (http_code env)

/-- The field updates of `_check_site` step 4 (monitor.py lines 370-380):
the probe results are written into the stored `SiteStatus`, with
`is_online = 200 <= status_code < 400`. -/
def apply_check (status : SiteStatus) (env : CheckEnv) : SiteStatus :=
  let r := check_http_status env.http
  { status with
    status_code := r.1
    latency_ms := r.2.1
    is_online := is_online_code r.1
    port_open := if env.host == "" then false else env.tcp_port_open
    port_checked := env.port
    last_check := env.now
    error_message := r.2.2 }

/-- The transition detection of `_check_site` step 5 (monitor.py lines
384-417): given the previously recorded online flag (absent on a first
check), the new online flag, the status code and the error string, the
list of alerts generated — one `recovered` or `down` entry on a change,
one `down` entry on a first check that is offline, nothing otherwise.
(`error or f"..."` picks the fallback message when `error` is empty.) -/
def transition_alerts (url : String) (was_online : Option Bool)
    (is_now_online : Bool) (status_code : Int) (error : String) (now : Nat) :
    List AlertEntry :=
  match was_online with
  | some b =>
    if b != is_now_online then
      if is_now_online then
        [{ url := url
           alert_type := "recovered"
           message := "Site is back online (HTTP " ++ toString status_code ++ ")"
           timestamp := now
           status_code := status_code }]
      else
        [{ url := url
           alert_type := "down"
           message := if error == "" then
               "Site is down (HTTP " ++ toString status_code ++ ")"
             else error
           timestamp := now
           status_code := status_code }]
    else []
  | none =>
    if is_now_online then []
    else
      [{ url := url
         alert_type := "down"
         message := if error == "" then
             "Site is unreachable (HTTP " ++ toString status_code ++ ")"
           else error
         timestamp := now
         status_code := status_code }]

/-- Embedding of `SiteMonitor._check_site` (monitor.py lines 344-423):
early return when the url is not registered; otherwise the HTTP and TCP
probe results are applied to the stored `SiteStatus` (`apply_check`), the
transition against `_previous_states` is evaluated (`transition_alerts`,
appending at most one `AlertEntry` to the alert log and notifying the
alert callbacks), `_previous_states[url]` is set to the new online flag,
and the status callbacks are notified.  The callback notifications do not
change the monitor state (their exceptions are swallowed by
`_notify_callbacks` / `_notify_alert_callbacks`), so only the log append
appears in the state. -/
def check_site (m : Monitor) (url : String) (env : CheckEnv) : Monitor :=
  if dictContains m.sites url = false then m
  else
    match dictGet m.sites url with
    | none => m
    | some status =>
      let status' := apply_check status env
      let was_online := dictGet m.previous_states url
      let is_now_online := status'.is_online
      let new_alerts := transition_alerts url was_online is_now_online
        status'.status_code status'.error_message env.now
      { m with
        sites := dictSet m.sites url status'
        alerts := m.alerts ++ new_alerts
        previous_states := dictSet m.previous_states url is_now_online }

/-- Discrete-time model of the interruptible wait at the end of
`_monitor_loop` (monitor.py lines 459-461): one tick is one
`time.sleep(0.5)`; `running t` is the value of `self._running` the loop
condition observes at its `t`-th evaluation, and `fuel` is the number of
ticks after which `time.time() - start_wait < self.check_interval` turns
false (about `2 * check_interval`).  The result is the tick at which the
loop exits, i.e. the number of half-second sleeps performed. -/
def monitor_wait (running : Nat → Bool) : Nat → Nat → Nat
  | 0, t => t
  | fuel + 1, t => if running t then monitor_wait running fuel (t + 1) else t

/-- The `timeout=5.0` passed to `self._monitor_thread.join` in
`stop_monitoring` (monitor.py line 490), in seconds. -/
def stop_join_timeout : Nat := 5

/-- Model of `threading.Thread.join(timeout)`: the call blocks until the
thread exits or the timeout elapses, whichever comes first;
`exit_after` is how long the thread still needs to finish. -/
def join_block (exit_after : Nat) (timeout : Nat) : Nat :=
  min exit_after timeout

/-- Embedding of `SiteMonitor.stop_monitoring` (monitor.py lines 476-492)
on the monitor state: the running flag is cleared and the thread
reference dropped (the bounded `join` is modelled by `join_block`). -/
def stop_monitoring (m : Monitor) : Monitor :=
  { m with running := false, monitor_thread := none }

/-- Python `str.isspace` on the ASCII characters, i.e. exactly what
`str.strip()` removes from ASCII text: space, tab, newline, vertical tab,
form feed, carriage return, and the file/group/record/unit separators
`\x1c`-`\x1f`.  The embedding of `validate_url` is stated for ASCII
input; the Unicode whitespace that Python additionally strips is outside
it. -/
def pyIsSpace (c : Char) : Bool :=
  c == ' ' || c == '\t' || c == '\n' || c == '\r' || c == '\x0b' ||
  c == '\x0c' || c == '\x1c' || c == '\x1d' || c == '\x1e' || c == '\x1f'

/-- Python `url.strip()` on the character list of an ASCII string. -/
def stripChars (cs : List Char) : List Char :=
  ((cs.dropWhile pyIsSpace).reverse.dropWhile pyIsSpace).reverse

/-- Python `list.startswith`-style test on character lists. -/
def startsWithChars : List Char → List Char → Bool
  | [], _ => true
  | _ :: _, [] => false
  | a :: p, b :: s => a == b && startsWithChars p s

/-- Python `url.startswith(('http://', 'https://'))`
(utils.py line 77). -/
def httpPrefixed (cs : List Char) : Bool :=
  startsWithChars "http://".toList cs || startsWithChars "https://".toList cs

/-- CPython `urlsplit` first removes every tab, carriage return and line
feed from the URL (`_UNSAFE_URL_BYTES_TO_REMOVE`). -/
def removeUnsafe (cs : List Char) : List Char :=
  cs.filter (fun c => !(c == '\t' || c == '\r' || c == '\n'))

/-- `urllib.parse.urlparse(url).netloc` for a URL whose (unsafe-byte
stripped) text starts with `http://` or `https://`, which is the only
shape `validate_url` feeds it: the characters after the `//` of the
scheme, up to the first `/`, `?` or `#`.  (`validate_url` never reads
`.port`, so the port text is not parsed.) -/
def netlocOf (cs : List Char) : List Char :=
  let cs := removeUnsafe cs
  let rest :=
    if startsWithChars "https://".toList cs then cs.drop 8
    else if startsWithChars "http://".toList cs then cs.drop 7
    else []
  rest.takeWhile (fun c => !(c == '/' || c == '?' || c == '#'))

/-- CPython `urlsplit` raises `ValueError("Invalid IPv6 URL")` when the
netloc contains `[` without `]` or `]` without `[`. -/
def bracketsUnbalanced (netloc : List Char) : Bool :=
  (netloc.contains '[' && !(netloc.contains ']')) ||
  (netloc.contains ']' && !(netloc.contains '['))

/-- The character class `[a-zA-Z0-9]` of the domain regex. -/
def isAlnumChar (c : Char) : Bool :=
  c.isAlpha || c.isDigit

/-- The character class `[a-zA-Z0-9\-]` of the domain regex. -/
def isLabelChar (c : Char) : Bool :=
  c.isAlpha || c.isDigit || c == '-'

/-- One label of the domain regex of utils.py line 99,
`[a-zA-Z0-9]([a-zA-Z0-9\-]` repeated 0 to 61 times `[a-zA-Z0-9])?`:
one alphanumeric character, optionally followed by up to 61 alphanumeric
or hyphen characters and a final alphanumeric character. -/
def labelMatch : List Char → Bool
  | [] => false
  | c :: rest =>
    isAlnumChar c &&
    (rest.isEmpty ||
      (decide (rest.length ≤ 62) && rest.dropLast.all isLabelChar &&
        (match rest.getLast? with
         | some d => isAlnumChar d
         | none => false)))

/-- Splitting a character list at every `.` (Python `s.split('.')`-style:
a leading, trailing or doubled dot yields an empty chunk). -/
def splitOnDot : List Char → List (List Char)
  | [] => [[]]
  | c :: rest =>
    let r := splitOnDot rest
    if c == '.' then [] :: r
    else
      match r with
      | [] => [[c]]
      | g :: gs => (c :: g) :: gs

/-- Full match of the anchored domain regex of utils.py line 99: the
pattern is one label followed by any number of `.`-label groups, and a
label never contains a dot, so the regex matches exactly when every
dot-separated chunk (at least one, possibly empty chunks for stray dots)
matches the label pattern.  (The `$` anchor would also accept a trailing
newline, but `urlsplit` has already removed every newline from the
netloc.) -/
def domain_pattern_match (domain : List Char) : Bool :=
  (splitOnDot domain).all labelMatch

/-- Embedding of `validate_url` (utils.py lines 55-108) for ASCII input:
strip surrounding whitespace, prepend `https://` when no `http://` or
`https://` text starts the input, parse (CPython's `urlparse` raises
`ValueError("Invalid IPv6 URL")` on an unbalanced bracket in the netloc,
which the `except` turns into a failure), reject an empty netloc, match
the part of the netloc before the first `:` against the domain regex, and
return the normalized URL on success.  (CPython versions from 3.11 also
validate a bracketed host — both brackets present — inside `urlparse`;
such a netloc is not covered by this embedding's success case only when
the brackets sit after the `:`, and no theorem below is stated about such
inputs.) -/
def validate_url (input : String) : Bool × String :=
  let url1 := stripChars input.toList
  let url := if httpPrefixed url1 then url1 else "https://".toList ++ url1
  let netloc := netlocOf url
  if bracketsUnbalanced netloc = true then
    (false, "Invalid URL: Invalid IPv6 URL")
  else if netloc = [] then
    (false, "Invalid URL: No domain found")
  else
    let domain := netloc.takeWhile (fun c => !(c == ':'))
    if domain_pattern_match domain = true then (true, String.mk url)
    else (false, "Invalid domain: " ++ String.mk domain)

/-- The normalized URL the specification describes: trim the raw input,
then prepend `https://` when the input does not start with `http://` or
`https://`. -/
def spec_normalized (input : String) : List Char :=
  let u := stripChars input.toList
  if httpPrefixed u then u else "https://".toList ++ u

/-- The host component the code validates: the netloc of the normalized
URL, up to the first `:`. -/
def spec_host (input : String) : List Char :=
  (netlocOf (spec_normalized input)).takeWhile (fun c => !(c == ':'))

/-- One label of the domain grammar as the specification words it: a
nonempty string of at most 63 characters, starting and ending with an
alphanumeric character, with hyphens allowed only in between. -/
def spec_label_ok (l : List Char) : Bool :=
  !l.isEmpty && decide (l.length ≤ 63) &&
  (match l.head? with
   | some c => isAlnumChar c
   | none => false) &&
  (match l.getLast? with
   | some c => isAlnumChar c
   | none => false) &&
  l.all isLabelChar

/-- The specification's domain grammar: dot-separated labels, each
satisfying `spec_label_ok`. -/
def spec_domain_ok (domain : List Char) : Bool :=
  (splitOnDot domain).all spec_label_ok

/-- A monitor fresh out of `SiteMonitor.__init__` with the default
configuration, used to instantiate the theorems below. -/
def emptyMonitor : Monitor :=
  { check_interval := 30
    timeout := 10
    sites := []
    callbacks := []
    alert_callbacks := []
    alerts := []
    previous_states := []
    running := false
    monitor_thread := none
    spawned := [] }

/-- A monitor with one registered site that has not been checked yet. -/
def sampleMonitor : Monitor :=
  { emptyMonitor with
    sites := [("https://a.com", SiteStatus.init "https://a.com" 0)] }

/-- A monitor whose one site was last seen online. -/
def sampleMonitorSeenOnline : Monitor :=
  { emptyMonitor with
    sites := [("https://a.com", SiteStatus.init "https://a.com" 0)]
    previous_states := [("https://a.com", true)] }

/-- An environment in which the HTTP probe times out. -/
def sampleEnvTimeout : CheckEnv :=
  { host := "a.com"
    port := 443
    http := HttpOutcome.raised ReqException.timeout
    tcp_port_open := false
    now := 5 }

/-- An environment in which the HTTP probe returns 200 in 45 ms. -/
def sampleEnvOk : CheckEnv :=
  { host := "a.com"
    port := 443
    http := HttpOutcome.success 200 45
    tcp_port_open := true
    now := 5 }

theorem dictGet_dictSet_self {α : Type} (d : List (String × α)) (k : String)
    (v : α) : dictGet (dictSet d k v) k = some v := by
  induction d with
  | nil => simp [dictSet, dictGet]
  | cons p rest ih =>
    by_cases h : p.1 == k
    · simp [dictSet, dictGet, h]
    · simp only [dictSet, h, if_false, Bool.false_eq_true]
      simpa [dictGet, List.find?_cons, h] using ih

theorem dictGet_dictDel_self {α : Type} (d : List (String × α)) (k : String) :
    dictGet (dictDel d k) k = none := by
  induction d with
  | nil => simp [dictDel, dictGet]
  | cons p rest ih =>
    by_cases h : p.1 == k
    · simpa [dictDel, h] using ih
    · simp only [dictDel, List.filter] at ih ⊢
      simp [dictGet, List.find?_cons, h, ih]

theorem dictDel_not_contains {α : Type} (d : List (String × α)) (k : String)
    (h : dictContains d k = false) : dictDel d k = d := by
  induction d with
  | nil => rfl
  | cons p rest ih =>
    by_cases hp : p.1 == k
    · exfalso
      simp [dictContains, dictGet, List.find?_cons, hp] at h
    · have hrest : dictContains rest k = false := by
        simpa [dictContains, dictGet, List.find?_cons, hp] using h
      simp [dictDel, hp] at ih ⊢
      exact ih hrest

theorem dictGet_none_of_not_contains {α : Type} (d : List (String × α))
    (k : String) (h : dictContains d k = false) : dictGet d k = none := by
  cases hg : dictGet d k with
  | none => rfl
  | some v => simp [dictContains, hg] at h

/-- C3 (code bug): the claim says a TLS/certificate failure is reported as
`(-1, -1, "SSL certificate error")`, but `requests.exceptions.SSLError`
is a subclass of `requests.exceptions.ConnectionError` and the
`except ConnectionError` clause of `check_http_status` precedes the
`except SSLError` clause, so an SSL failure is answered with
`(-1, -1, "Connection failed")` and the SSL branch is dead code. -/
theorem check_http_status_ssl_divergence :
    check_http_status (HttpOutcome.raised ReqException.sslError) =
      (-1, -1, "Connection failed") ∧
    check_http_status (HttpOutcome.raised ReqException.sslError) ≠
      (-1, -1, "SSL certificate error") := by
  exact ⟨rfl, by decide⟩

/-- C7: running `_check_site` (as `force_check` spawns it) on a URL that
is not in the sites map is a no-op: the monitor state is returned
unchanged — no status entry is created, no alert is emitted, no
previous-state entry changes — and, the function being total, no
exception is raised. -/
theorem check_site_unregistered_noop (m : Monitor) (url : String)
    (env : CheckEnv) (h : dictContains m.sites url = false) :
    check_site m url env = m := by
  simp [check_site, h]

theorem check_site_unregistered_noop_witness :
    check_site sampleMonitor "https://other.example" sampleEnvTimeout =
      sampleMonitor :=
  check_site_unregistered_noop sampleMonitor "https://other.example"
    sampleEnvTimeout (by decide)

/-- C10: `clear_alerts` empties the alert log — a subsequent `get_alerts`
returns the empty list — and changes nothing else: the sites map, the
previous-state map, the running flag and both registered-callback lists
are unchanged. -/
theorem clear_alerts_frame (m : Monitor) :
    get_alerts (clear_alerts m) = [] ∧
    (clear_alerts m).sites = m.sites ∧
    (clear_alerts m).previous_states = m.previous_states ∧
    (clear_alerts m).running = m.running ∧
    (clear_alerts m).callbacks = m.callbacks ∧
    (clear_alerts m).alert_callbacks = m.alert_callbacks :=
  ⟨rfl, rfl, rfl, rfl, rfl, rfl⟩

/-- C4: `add_site` is idempotent.  For a URL already present it returns
the stored `SiteStatus` and the monitor completely unchanged (in
particular no further first check is spawned); for a new URL it stores
the default status (offline, sentinel code, `last_check = now`), leaves
previous states and alerts alone, spawns exactly one first check, and
returns the stored default status. -/
theorem add_site_idempotent (m : Monitor) (url : String) (now : Nat) :
    (dictContains m.sites url = true →
      add_site m url now = (m, dictGet m.sites url)) ∧
    (dictContains m.sites url = false →
      (add_site m url now).2 = some (SiteStatus.init url now) ∧
      (add_site m url now).1.sites =
        dictSet m.sites url (SiteStatus.init url now) ∧
      (add_site m url now).1.previous_states = m.previous_states ∧
      (add_site m url now).1.alerts = m.alerts ∧
      (add_site m url now).1.spawned = m.spawned ++ [url]) := by
  constructor
  · intro h
    simp [add_site, h]
  · intro h
    simp [add_site, h, force_check, dictGet_dictSet_self]

theorem add_site_idempotent_witness :
    add_site sampleMonitor "https://a.com" 7 =
      (sampleMonitor, dictGet sampleMonitor.sites "https://a.com") ∧
    (add_site emptyMonitor "https://a.com" 7).2 =
      some (SiteStatus.init "https://a.com" 7) ∧
    (add_site emptyMonitor "https://a.com" 7).1.spawned = ["https://a.com"] :=
  ⟨(add_site_idempotent sampleMonitor "https://a.com" 7).1 (by decide),
   ((add_site_idempotent emptyMonitor "https://a.com" 7).2 (by decide)).1,
   by
     have := (((add_site_idempotent emptyMonitor "https://a.com" 7).2
       (by decide)).2.2.2.2)
     simpa [emptyMonitor] using this⟩

/-- C9: the shutdown latency is bounded independently of
`check_interval`.  Once the running flag observed by the wait loop of
`_monitor_loop` is false from tick `t0` on, the loop performs at most
`t0` of its half-second sleeps no matter how much interval fuel remains;
and the `join(timeout=5.0)` of `stop_monitoring` blocks at most 5
seconds, after `stop_monitoring` has cleared the running flag. -/
theorem stop_monitoring_bounded (m : Monitor) (running : Nat → Bool)
    (fuel t0 : Nat) (h : running t0 = false) :
    monitor_wait running fuel 0 ≤ t0 ∧
    (∀ e, join_block e stop_join_timeout ≤ 5) ∧
    (stop_monitoring m).running = false := by
  refine ⟨?_, ?_, rfl⟩
  · have key : ∀ n t, t ≤ t0 → monitor_wait running n t ≤ t0 := by
      intro n
      induction n with
      | zero => intro t ht; simpa [monitor_wait] using ht
      | succ n ih =>
        intro t ht
        cases hr : running t with
        | false => simpa [monitor_wait, hr] using ht
        | true =>
          have hne : t ≠ t0 := by
            intro he
            rw [he, h] at hr
            exact Bool.noConfusion hr
          have ht1 : t + 1 ≤ t0 := Nat.lt_of_le_of_ne ht hne
          simpa [monitor_wait, hr] using ih (t + 1) ht1
    exact key fuel 0 (Nat.zero_le t0)
  · intro e
    exact Nat.min_le_right e 5

theorem stop_monitoring_bounded_witness :
    monitor_wait (fun t => decide (t < 3)) 240 0 ≤ 3 ∧
    (∀ e, join_block e stop_join_timeout ≤ 5) ∧
    (stop_monitoring sampleMonitor).running = false :=
  stop_monitoring_bounded sampleMonitor (fun t => decide (t < 3)) 240 3
    (by decide)

theorem apply_check_is_online (st : SiteStatus) (env : CheckEnv) :
    (apply_check st env).is_online = new_online env := rfl

theorem apply_check_status_code (st : SiteStatus) (env : CheckEnv) :
    (apply_check st env).status_code = http_code env := rfl

theorem check_site_eq_of_registered (m : Monitor) (url : String)
    (env : CheckEnv) (st : SiteStatus) (hst : dictGet m.sites url = some st) :
    check_site m url env =
      { m with
        sites := dictSet m.sites url (apply_check st env)
        alerts := m.alerts ++
          transition_alerts url (dictGet m.previous_states url)
            (apply_check st env).is_online (apply_check st env).status_code
            (apply_check st env).error_message env.now
        previous_states :=
          dictSet m.previous_states url (apply_check st env).is_online } := by
  have hc : dictContains m.sites url = true := by simp [dictContains, hst]
  simp [check_site, hc, hst]

theorem transition_alerts_change (url : String) (b n : Bool) (code : Int)
    (err : String) (now : Nat) (h : b ≠ n) :
    ∃ a, transition_alerts url (some b) n code err now = [a] ∧
      a.alert_type = (if n then "recovered" else "down") := by
  cases b <;> cases n
  · exact absurd rfl h
  · exact ⟨_, rfl, rfl⟩
  · exact ⟨_, rfl, rfl⟩
  · exact absurd rfl h

theorem transition_alerts_same (url : String) (b : Bool) (code : Int)
    (err : String) (now : Nat) :
    transition_alerts url (some b) b code err now = [] := by
  simp [transition_alerts]

theorem transition_alerts_first_down (url : String) (code : Int)
    (err : String) (now : Nat) :
    ∃ a, transition_alerts url none false code err now = [a] ∧
      a.alert_type = "down" :=
  ⟨_, rfl, rfl⟩

theorem transition_alerts_first_online (url : String) (code : Int)
    (err : String) (now : Nat) :
    transition_alerts url none true code err now = [] := rfl

/-- C1: for a registered endpoint, one application of `_check_site`
appends exactly one alert when the recorded previous online flag differs
from the new one (`recovered` when now online, `down` when now offline),
appends none when it is unchanged, appends exactly one `down` alert on a
first check that is offline and none on a first check that is online —
and in every case afterwards stores the new online flag as the previous
state of that endpoint. -/
theorem check_site_transition_spec (m : Monitor) (url : String)
    (env : CheckEnv) (hreg : dictContains m.sites url = true) :
    dictGet (check_site m url env).previous_states url =
      some (new_online env) ∧
    (∀ b, dictGet m.previous_states url = some b → b ≠ new_online env →
      ∃ a, (check_site m url env).alerts = m.alerts ++ [a] ∧
        a.alert_type = (if new_online env then "recovered" else "down")) ∧
    (∀ b, dictGet m.previous_states url = some b → b = new_online env →
      (check_site m url env).alerts = m.alerts) ∧
    (dictGet m.previous_states url = none → new_online env = false →
      ∃ a, (check_site m url env).alerts = m.alerts ++ [a] ∧
        a.alert_type = "down") ∧
    (dictGet m.previous_states url = none → new_online env = true →
      (check_site m url env).alerts = m.alerts) := by
  obtain ⟨st, hst⟩ : ∃ st, dictGet m.sites url = some st :=
    Option.isSome_iff_exists.mp (by simpa [dictContains] using hreg)
  have hEq := check_site_eq_of_registered m url env st hst
  refine ⟨?_, ?_, ?_, ?_, ?_⟩
  · rw [hEq]
    simp only [apply_check_is_online]
    exact dictGet_dictSet_self ..
  · intro b hb hbn
    obtain ⟨a, ha, hty⟩ := transition_alerts_change url b (new_online env)
      (apply_check st env).status_code (apply_check st env).error_message
      env.now hbn
    refine ⟨a, ?_, hty⟩
    rw [hEq]
    simp only [apply_check_is_online, hb, ha]
  · intro b hb hbe
    subst hbe
    rw [hEq]
    simp only [apply_check_is_online, hb, transition_alerts_same,
      List.append_nil]
  · intro hnone hoff
    obtain ⟨a, ha, hty⟩ := transition_alerts_first_down url
      (apply_check st env).status_code (apply_check st env).error_message
      env.now
    refine ⟨a, ?_, hty⟩
    rw [hEq]
    simp only [apply_check_is_online, hnone, hoff, ha]
  · intro hnone hon
    rw [hEq]
    simp only [apply_check_is_online, hnone, hon,
      transition_alerts_first_online, List.append_nil]

theorem check_site_transition_spec_witness :
    dictGet
        (Monitor.previous_states
          (check_site sampleMonitorSeenOnline "https://a.com" sampleEnvTimeout))
        "https://a.com" = some false ∧
    ∃ a,
      Monitor.alerts
          (check_site sampleMonitorSeenOnline "https://a.com" sampleEnvTimeout) =
        [a] ∧
      a.alert_type = "down" := by
  have h := check_site_transition_spec sampleMonitorSeenOnline "https://a.com"
    sampleEnvTimeout (by decide)
  refine ⟨h.1, ?_⟩
  obtain ⟨a, ha, hty⟩ := h.2.1 true (by decide) (by decide)
  exact ⟨a, by simpa [sampleMonitorSeenOnline, emptyMonitor] using ha,
    by simpa using hty⟩

/-- C2: after `_check_site` applies the probe results to a registered
endpoint, the stored status carries the probed status code and its
`is_online` flag equals `200 <= status_code < 400` computed from that
very code — it is never set independently of the status code. -/
theorem check_site_online_iff_code (m : Monitor) (url : String)
    (env : CheckEnv) (hreg : dictContains m.sites url = true) :
    ∃ st, dictGet (check_site m url env).sites url = some st ∧
      st.status_code = http_code env ∧
      st.is_online = is_online_code st.status_code := by
  obtain ⟨p, hp⟩ : ∃ p, dictGet m.sites url = some p :=
    Option.isSome_iff_exists.mp (by simpa [dictContains] using hreg)
  refine ⟨apply_check p env, ?_, rfl, rfl⟩
  rw [check_site_eq_of_registered m url env p hp]
  exact dictGet_dictSet_self ..

theorem check_site_online_iff_code_witness :
    ∃ st,
      dictGet (check_site sampleMonitor "https://a.com" sampleEnvOk).sites
        "https://a.com" = some st ∧
      st.status_code = http_code sampleEnvOk ∧
      st.is_online = is_online_code st.status_code :=
  check_site_online_iff_code sampleMonitor "https://a.com" sampleEnvOk
    (by decide)

/-- C5: `remove_site` leaves neither a status nor a previous-state entry
for the URL; it is a no-op when the URL is absent from both maps; and a
subsequent `add_site` of the same URL behaves as a first registration:
its check finds no previous state and an offline outcome produces exactly
one `down` alert. -/
theorem remove_site_resets (m : Monitor) (url : String) (now : Nat)
    (env : CheckEnv) :
    dictGet (remove_site m url).sites url = none ∧
    dictGet (remove_site m url).previous_states url = none ∧
    (dictContains m.sites url = false →
      dictContains m.previous_states url = false → remove_site m url = m) ∧
    dictGet (add_site (remove_site m url) url now).1.previous_states url =
      none ∧
    (new_online env = false →
      ∃ a,
        (check_site (add_site (remove_site m url) url now).1 url env).alerts =
          (add_site (remove_site m url) url now).1.alerts ++ [a] ∧
        a.alert_type = "down") := by
  have h1 : dictGet (remove_site m url).sites url = none := by
    by_cases hc : dictContains m.sites url
    · simp [remove_site, hc, dictGet_dictDel_self]
    · simp only [Bool.not_eq_true] at hc
      simp [remove_site, hc, dictGet_none_of_not_contains m.sites url hc]
  have h2 : dictGet (remove_site m url).previous_states url = none := by
    by_cases hc : dictContains m.previous_states url
    · simp [remove_site, hc, dictGet_dictDel_self]
    · simp only [Bool.not_eq_true] at hc
      simp [remove_site, hc,
        dictGet_none_of_not_contains m.previous_states url hc]
  have hnc : dictContains (remove_site m url).sites url = false := by
    simp [dictContains, h1]
  have hadd :
      (add_site (remove_site m url) url now).1.previous_states =
        (remove_site m url).previous_states ∧
      (add_site (remove_site m url) url now).1.sites =
        dictSet (remove_site m url).sites url (SiteStatus.init url now) := by
    constructor <;> simp [add_site, hnc, force_check]
  have h4 :
      dictGet (add_site (remove_site m url) url now).1.previous_states url =
        none := by
    rw [hadd.1]; exact h2
  refine ⟨h1, h2, ?_, h4, ?_⟩
  · intro hcs hcp
    simp [remove_site, hcs, hcp]
  · intro hoff
    have hst :
        dictGet (add_site (remove_site m url) url now).1.sites url =
          some (SiteStatus.init url now) := by
      rw [hadd.2]; exact dictGet_dictSet_self ..
    have hEq := check_site_eq_of_registered
      (add_site (remove_site m url) url now).1 url env
      (SiteStatus.init url now) hst
    obtain ⟨a, ha, hty⟩ := transition_alerts_first_down url
      (apply_check (SiteStatus.init url now) env).status_code
      (apply_check (SiteStatus.init url now) env).error_message env.now
    refine ⟨a, ?_, hty⟩
    rw [hEq]
    simp only [apply_check_is_online, h4, hoff, ha]

theorem remove_site_resets_witness :
    dictGet (remove_site sampleMonitorSeenOnline "https://a.com").sites
      "https://a.com" = none ∧
    dictGet
      (remove_site sampleMonitorSeenOnline "https://a.com").previous_states
      "https://a.com" = none ∧
    remove_site emptyMonitor "https://a.com" = emptyMonitor ∧
    ∃ a,
      (check_site
        (add_site (remove_site sampleMonitorSeenOnline "https://a.com")
          "https://a.com" 7).1 "https://a.com" sampleEnvTimeout).alerts =
        (add_site (remove_site sampleMonitorSeenOnline "https://a.com")
          "https://a.com" 7).1.alerts ++ [a] ∧
      a.alert_type = "down" := by
  have h := remove_site_resets sampleMonitorSeenOnline "https://a.com" 7
    sampleEnvTimeout
  have h' := remove_site_resets emptyMonitor "https://a.com" 7
    sampleEnvTimeout
  exact ⟨h.1, h.2.1, h'.2.2.1 (by decide) (by decide),
    h.2.2.2.2 (by decide)⟩

theorem notify_callbacks_length (cbs : List (SiteStatus → Except String Unit))
    (status : SiteStatus) :
    (notify_callbacks cbs status).length = cbs.length := by
  induction cbs with
  | nil => rfl
  | cons c r ih => simp [notify_callbacks, ih]

theorem notify_callbacks_getElem
    (cbs : List (SiteStatus → Except String Unit)) (status : SiteStatus)
    (i : Nat) :
    (notify_callbacks cbs status)[i]? =
      (cbs[i]?).map (fun callback => invoke_status_callback callback status) := by
  induction cbs generalizing i with
  | nil => simp [notify_callbacks]
  | cons c r ih =>
    cases i with
    | zero => simp [notify_callbacks]
    | succ j => simp [notify_callbacks, ih]

theorem notify_alert_callbacks_length
    (acbs : List (AlertEntry → Except String Unit)) (alert : AlertEntry) :
    (notify_alert_callbacks acbs alert).length = acbs.length := by
  induction acbs with
  | nil => rfl
  | cons c r ih => simp [notify_alert_callbacks, ih]

theorem notify_alert_callbacks_getElem
    (acbs : List (AlertEntry → Except String Unit)) (alert : AlertEntry)
    (i : Nat) :
    (notify_alert_callbacks acbs alert)[i]? =
      (acbs[i]?).map (fun callback => invoke_alert_callback callback alert) := by
  induction acbs generalizing i with
  | nil => simp [notify_alert_callbacks]
  | cons c r ih =>
    cases i with
    | zero => simp [notify_alert_callbacks]
    | succ j => simp [notify_alert_callbacks, ih]

/-- C6: publishing a status or an alert produces one invocation per
registered callback, in order: the invocation trace has exactly the
length of the callback list and its `i`-th entry is the `i`-th callback
applied to the published value.  A raising callback contributes a
swallowed-error entry and leaves every later entry intact, and the
notification functions are total, so no exception escapes the publishing
check. -/
theorem notify_callbacks_exactly_once
    (cbs : List (SiteStatus → Except String Unit))
    (acbs : List (AlertEntry → Except String Unit))
    (status : SiteStatus) (alert : AlertEntry) (i : Nat) :
    (notify_callbacks cbs status).length = cbs.length ∧
    (notify_callbacks cbs status)[i]? =
      (cbs[i]?).map (fun callback => invoke_status_callback callback status) ∧
    (notify_alert_callbacks acbs alert).length = acbs.length ∧
    (notify_alert_callbacks acbs alert)[i]? =
      (acbs[i]?).map (fun callback => invoke_alert_callback callback alert) :=
  ⟨notify_callbacks_length cbs status,
   notify_callbacks_getElem cbs status i,
   notify_alert_callbacks_length acbs alert,
   notify_alert_callbacks_getElem acbs alert i⟩

theorem isLabelChar_of_isAlnumChar (c : Char) (h : isAlnumChar c = true) :
    isLabelChar c = true := by
  cases ha : c.isAlpha <;> cases hd : c.isDigit <;>
    simp_all [isLabelChar, isAlnumChar]

theorem labelMatch_eq_spec (l : List Char) : labelMatch l = spec_label_ok l := by
  match l with
  | [] => rfl
  | [c] =>
    cases hA : isAlnumChar c with
    | false => simp [labelMatch, spec_label_ok, hA]
    | true =>
      have hL := isLabelChar_of_isAlnumChar c hA
      simp [labelMatch, spec_label_ok, hA, hL]
  | c :: d :: rest =>
    have hne : (d :: rest) ≠ [] := by simp
    have hlast : (d :: rest).getLast? = some ((d :: rest).getLast hne) :=
      List.getLast?_eq_getLast _ hne
    have hall : (d :: rest).all isLabelChar =
        ((d :: rest).dropLast.all isLabelChar &&
          isLabelChar ((d :: rest).getLast hne)) := by
      conv_lhs => rw [← List.dropLast_append_getLast hne]
      simp
    have hlen : decide ((c :: d :: rest).length ≤ 63) =
        decide ((d :: rest).length ≤ 62) := by
      rw [decide_eq_decide]
      simp only [List.length_cons]
      omega
    cases hA : isAlnumChar c with
    | false => simp [labelMatch, spec_label_ok, hA]
    | true =>
      have hLc := isLabelChar_of_isAlnumChar c hA
      cases hB : isAlnumChar ((d :: rest).getLast hne) with
      | false =>
        simp [labelMatch, spec_label_ok, hA, hlast, hB, hall]
      | true =>
        have hLb := isLabelChar_of_isAlnumChar _ hB
        simp [labelMatch, spec_label_ok, hA, hlast, hB, hall, hLc, hLb, hlen]

theorem domain_match_eq_spec (d : List Char) :
    domain_pattern_match d = spec_domain_ok d := by
  have h : labelMatch = spec_label_ok := funext labelMatch_eq_spec
  simp [domain_pattern_match, spec_domain_ok, h]

theorem spec_host_eq (s : String) :
    spec_host s =
      (netlocOf (spec_normalized s)).takeWhile (fun c => !(c == ':')) := rfl

theorem validate_url_eq (s : String) :
    validate_url s =
      if bracketsUnbalanced (netlocOf (spec_normalized s)) = true then
        (false, "Invalid URL: Invalid IPv6 URL")
      else if netlocOf (spec_normalized s) = [] then
        (false, "Invalid URL: No domain found")
      else if domain_pattern_match
          ((netlocOf (spec_normalized s)).takeWhile (fun c => !(c == ':'))) =
            true then
        (true, String.mk (spec_normalized s))
      else
        (false, "Invalid domain: " ++
          String.mk
            ((netlocOf (spec_normalized s)).takeWhile (fun c => !(c == ':')))) :=
  rfl

/-- C8 (counterexample): on the raw input `"a.com:["` the normalized URL
`https://a.com:[` has a nonempty netloc whose host part `a.com` satisfies
the domain-label grammar, so the claim requires a success result; but
CPython's `urlparse` raises `ValueError("Invalid IPv6 URL")` on the
unbalanced bracket in the netloc, which `validate_url` catches and turns
into a failure result. -/
theorem validate_url_claim_counterexample :
    netlocOf (spec_normalized "a.com:[") ≠ [] ∧
    spec_domain_ok (spec_host "a.com:[") = true ∧
    (validate_url "a.com:[").1 = false := by decide

/-- C8 (amended): for ASCII input (where this embedding of `str.strip`
and `urlparse` is exact), `validate_url` trims the input, prepends
`https://` when no `http://` or `https://` text starts it, and — as long
as the resulting authority contains no square bracket — succeeds exactly
when the netloc is nonempty and the host before the first `:` matches the
domain-label grammar, returning the normalized absolute URL; an
unbalanced `[` or `]` in the authority instead makes the URL parse raise,
which surfaces as a failure result. -/
theorem validate_url_amended (s : String)
    (_hascii : s.toList.all (fun c => decide (c.toNat < 128)) = true) :
    ((netlocOf (spec_normalized s)).contains '[' = false →
      (netlocOf (spec_normalized s)).contains ']' = false →
      (((validate_url s).1 = true) ↔
        (netlocOf (spec_normalized s) ≠ [] ∧
          spec_domain_ok (spec_host s) = true)) ∧
      ((validate_url s).1 = true →
        (validate_url s).2 = String.mk (spec_normalized s))) ∧
    (bracketsUnbalanced (netlocOf (spec_normalized s)) = true →
      (validate_url s).1 = false) := by
  constructor
  · intro hbl hbr
    have hnb : bracketsUnbalanced (netlocOf (spec_normalized s)) = false := by
      simp only [bracketsUnbalanced, hbl, hbr, Bool.false_and, Bool.or_self]
    by_cases hEmpty : netlocOf (spec_normalized s) = []
    · rw [validate_url_eq, hnb, if_neg Bool.false_ne_true, if_pos hEmpty]
      constructor
      · constructor
        · intro h
          exact absurd h (by simp)
        · intro h
          exact absurd hEmpty h.1
      · intro h
        exact absurd h (by simp)
    · by_cases hDom : domain_pattern_match
        ((netlocOf (spec_normalized s)).takeWhile (fun c => !(c == ':'))) = true
      · rw [validate_url_eq, hnb, if_neg Bool.false_ne_true, if_neg hEmpty,
          if_pos hDom]
        have hsd : spec_domain_ok (spec_host s) = true := by
          rw [spec_host_eq, ← domain_match_eq_spec]
          exact hDom
        exact ⟨iff_of_true rfl ⟨hEmpty, hsd⟩, fun _ => rfl⟩
      · rw [validate_url_eq, hnb, if_neg Bool.false_ne_true, if_neg hEmpty,
          if_neg hDom]
        constructor
        · constructor
          · intro h
            exact absurd h (by simp)
          · intro h
            refine absurd ?_ hDom
            rw [domain_match_eq_spec, ← spec_host_eq]
            exact h.2
        · intro h
          exact absurd h (by simp)
  · intro hub
    rw [validate_url_eq, hub, if_pos rfl]

theorem validate_url_amended_witness :
    (validate_url "  google.com  ").1 = true ∧
    (validate_url "  google.com  ").2 =
      String.mk (spec_normalized "  google.com  ") := by
  have h := (validate_url_amended "  google.com  " (by decide)).1
    (by decide) (by decide)
  have h1 : (validate_url "  google.com  ").1 = true :=
    h.1.mpr ⟨by decide, by decide⟩
  exact ⟨h1, h.2 h1⟩

end PySiteCheck
